import Mathlib

/-!
Verification of the cycle-tracking engine in src/main.py.

Modelling conventions.
Calendar dates are days since an arbitrary epoch, represented by ℤ;
pandas Timestamp plus timedelta(days = k) is integer addition.  The
float arithmetic of numpy (means, weighted averages, regression slopes)
is modelled exactly over ℚ.  Python's built-in round (round half to
even) is modelled by pyround; int(round(np.std l)) is modelled by
pyroundSqrt applied to the exact variance of l.  A patient's rows of
the reportes table are passed to each function as the list of its valid
(parseable) dates, in table order and possibly with duplicates:
pd.to_datetime(...,errors="coerce").dropna() is the upstream filtering
of malformed entries, which the claims do not touch.
-/

namespace PeriodPredictor

/-- The four named sub-phases, in the source's fixed order
(strings "Menstrual", "Folicular", "Ovulación", "Lútea"). -/
inductive Fase where
  | Menstrual
  | Folicular
  | Ovulacion
  | Lutea
deriving DecidableEq

/-- One row of the phase table built in calcular_fases_ciclo
(main.py lines 162-174): a phase with inclusive start and end dates. -/
structure Intervalo where
  fase : Fase
  inicio : ℤ
  fin : ℤ
deriving DecidableEq

/-- The set of days an interval covers (inclusive on both ends). -/
def dias (I : Intervalo) : Finset ℤ := Finset.Icc I.inicio I.fin

/-- The length of an interval in days. -/
def duracion (I : Intervalo) : ℤ := I.fin - I.inicio + 1

/-- Python's round: round half to even (banker's rounding). -/
def pyround (q : ℚ) : ℤ :=
  if q - ⌊q⌋ < 1 / 2 then ⌊q⌋
  else if 1 / 2 < q - ⌊q⌋ then ⌊q⌋ + 1
  else if Even ⌊q⌋ then ⌊q⌋ else ⌊q⌋ + 1

/-- np.mean over exact rationals (0 on the empty list; never used there). -/
def mean (l : List ℚ) : ℚ := l.sum / (l.length : ℚ)

/-- Population variance (np.std squared, ddof = 0). -/
def var_pop (l : List ℚ) : ℚ :=
  ((l.map (fun d => (d - mean l) ^ 2)).sum) / (l.length : ℚ)

/-- Sample variance (pandas .std() squared, ddof = 1). -/
def var_samp (l : List ℚ) : ℚ :=
  ((l.map (fun d => (d - mean l) ^ 2)).sum) / ((l.length : ℚ) - 1)

/-- The integer part of the square root of a non-negative rational. -/
def sqrtCandidato (v : ℚ) : ℤ := (Nat.sqrt v.floor.toNat : ℕ)

/-- int(round(np.std ...)) applied to the exact variance v: the
banker-rounded square root of v.  For 0 ≤ v, sqrtCandidato v = n gives
n ≤ √v < n + 1, so round(√v) is n or n + 1, decided by comparing v
with (n + 1/2)^2; a tie (√v exactly n + 1/2) goes to the even value. -/
def pyroundSqrt (v : ℚ) : ℤ :=
  if v < ((sqrtCandidato v : ℚ) + 1 / 2) ^ 2 then sqrtCandidato v
  else if ((sqrtCandidato v : ℚ) + 1 / 2) ^ 2 < v then sqrtCandidato v + 1
  else if Even (sqrtCandidato v) then sqrtCandidato v else sqrtCandidato v + 1

/-- The slope of the degree-1 least-squares fit, np.polyfit(x, l, 1)[0],
with x = 0, 1, ..., len l - 1 (main.py lines 249-250). -/
def pendiente (l : List ℚ) : ℚ :=
  let n : ℚ := (l.length : ℚ)
  let xs : List ℚ := (List.range l.length).map (fun i => (i : ℚ))
  (n * (List.zipWith (fun a b => a * b) xs l).sum - xs.sum * l.sum) /
    (n * (xs.map (fun x => x ^ 2)).sum - xs.sum ^ 2)

/-- pd.to_datetime(...).dropna().sort_values().drop_duplicates()
(main.py lines 97, 207): ascending sort of the valid dates, then
removal of later duplicate occurrences. -/
def fechasOrdenadas (dates : List ℤ) : List ℤ :=
  (List.insertionSort (· ≤ ·) dates).dedup

/-- fechas.diff().dt.days.dropna() (main.py lines 101, 213): consecutive
differences of the sorted distinct dates. -/
def difsDe (dates : List ℤ) : List ℤ :=
  List.zipWith (fun a b => a - b) (fechasOrdenadas dates).tail (fechasOrdenadas dates)

/-- The consecutive differences as exact rationals. -/
def difsQ (dates : List ℤ) : List ℚ := (difsDe dates).map (Int.cast : ℤ → ℚ)

/-- df["fecha_periodo"].max() (main.py line 149); equally the last
element fechas.iloc[-1] of the ascending sort (line 299).  0 on the
empty list (never used there). -/
def maxFecha : List ℤ → ℤ
  | [] => 0
  | h :: t => t.foldl max h

/-- n_recientes = max(2, len(difs) // 3) (main.py line 233). -/
def n_recientes (n : ℕ) : ℕ := max 2 (n / 3)

/-- ciclos_recientes = difs[-n_recientes:] (main.py line 234). -/
def ciclos_recientes (difs : List ℚ) : List ℚ :=
  difs.drop (difs.length - n_recientes difs.length)

/-- ciclos_antiguos = difs[:-n_recientes] (main.py line 235). -/
def ciclos_antiguos (difs : List ℚ) : List ℚ :=
  difs.take (difs.length - n_recientes difs.length)

/-- avg_antiguo = np.mean(ciclos_antiguos) if ciclos_antiguos else
avg_reciente (main.py line 241). -/
def avg_antiguo (difs : List ℚ) : ℚ :=
  if ciclos_antiguos difs = [] then mean (ciclos_recientes difs)
  else mean (ciclos_antiguos difs)

/-- The default weight pesos_recientes = 0.6 of the keyword argument of
calcular_estadisticas_ciclo_avanzado (main.py line 199); every call in
the source uses the default. -/
def pesos_recientes : ℚ := 6 / 10

/-- promedio_ponderado by the number of diffs (main.py lines 219-244):
one diff: that diff; 2-3 diffs: plain mean; 4 or more: weighted mix of
the recent tail and the older head. -/
def promedio_ponderado_difs (difs : List ℚ) : ℚ :=
  if difs.length = 1 then difs.headD 0
  else if difs.length ≤ 3 then mean difs
  else mean (ciclos_recientes difs) * pesos_recientes +
    avg_antiguo difs * (1 - pesos_recientes)

/-- tendencia by the number of diffs (main.py lines 223, 229, 250):
one diff: 0; 2-3 diffs: last minus first; 4 or more: the least-squares
slope over the whole sequence. -/
def tendencia_difs (difs : List ℚ) : ℚ :=
  if difs.length = 1 then 0
  else if difs.length ≤ 3 then difs.getLastD 0 - difs.headD 0
  else pendiente difs

/-- desviacion by the number of diffs (main.py lines 222, 228, 246):
one diff: 0; otherwise int(round(np.std(difs))) with population std. -/
def desviacion_difs (difs : List ℚ) : ℤ :=
  if difs.length = 1 then 0 else pyroundSqrt (var_pop difs)

/-- The triple returned by calcular_estadisticas_ciclo_avanzado:
(int(round(promedio_ajustado)), int(round(desviacion)), tendencia). -/
structure Estadisticas where
  promedio : ℤ
  desviacion : ℤ
  tendencia : ℚ
deriving DecidableEq

/-- calcular_estadisticas_ciclo_avanzado (main.py lines 199-259).
None (insufficient data) when fewer than 2 distinct valid dates exist;
otherwise the trend-damped weighted mean clamped to [21, 35] and
rounded, the rounded population standard deviation, and the raw trend. -/
def calcular_estadisticas_ciclo_avanzado (dates : List ℤ) : Option Estadisticas :=
  if (fechasOrdenadas dates).length < 2 then none
  else if difsQ dates = [] then none
  else
    let difs := difsQ dates
    let tendencia := tendencia_difs difs
    let promedio_ajustado := promedio_ponderado_difs difs + tendencia * (3 / 10)
    some ⟨pyround (max 21 (min 35 promedio_ajustado)), desviacion_difs difs, tendencia⟩

/-- obtener_duracion_menstrual_optima (main.py lines 261-282), on the
patient's list of valid recorded durations in table order. -/
def obtener_duracion_menstrual_optima (duraciones : List ℤ) : ℤ :=
  if duraciones = [] then 5
  else if duraciones.length = 1 then duraciones.headD 5
  else
    let ultima_duracion := duraciones.getLastD 0
    let promedio := mean (duraciones.map (Int.cast : ℤ → ℚ))
    if |(ultima_duracion : ℚ) - promedio| ≤ 1 then ultima_duracion
    else pyround promedio

/-- calcular_promedio_ciclo (main.py lines 87-114): rounded mean and
rounded sample standard deviation of the consecutive differences, with
the single-difference NaN std replaced by 0 (lines 111-112). -/
def calcular_promedio_ciclo (dates : List ℤ) : Option (ℤ × ℤ) :=
  if dates = [] then none
  else if (fechasOrdenadas dates).length < 2 then none
  else if difsQ dates = [] then none
  else
    let difs := difsQ dates
    let desviacion : ℤ := if difs.length = 1 then 0 else pyroundSqrt (var_samp difs)
    some (pyround (mean difs), desviacion)

/-- The statistics actually used by predecir_proximo_ciclo (main.py
lines 302-310): the advanced estimate when available, otherwise the
defaults promedio = 28, desviacion = 2 with method "valor_default";
tendencia = none models the Python None of the fallback. -/
structure ParametrosPrediccion where
  promedio : ℤ
  desviacion : ℤ
  tendencia : Option ℚ
  metodo : String
deriving DecidableEq

/-- Lines 302-310 of main.py. -/
def parametros_prediccion (dates : List ℤ) : ParametrosPrediccion :=
  match calcular_estadisticas_ciclo_avanzado dates with
  | none => ⟨28, 2, none, "valor_default"⟩
  | some e => ⟨e.promedio, e.desviacion, some e.tendencia, "modelo_ponderado"⟩

/-- The trend-adjustment test of main.py line 316:
tendencia and abs(tendencia) > 0.5 and len(fechas) >= 4, where fechas
is the list of valid dates (duplicates included) and a None or zero
tendencia is falsy. -/
def condicion_ajuste (dates : List ℤ) : Bool :=
  match (parametros_prediccion dates).tendencia with
  | none => false
  | some t => decide (t ≠ 0) && decide (1 / 2 < |t|) && decide (4 ≤ dates.length)

/-- ajuste_dias = int(round(tendencia * 0.5)) when the adjustment test
holds, otherwise no adjustment (main.py lines 316-318). -/
def ajuste_dias (dates : List ℤ) : ℤ :=
  if condicion_ajuste dates then
    match (parametros_prediccion dates).tendencia with
    | some t => pyround (t * (1 / 2))
    | none => 0
  else 0

/-- The method tag after the optional trend adjustment (main.py line 319). -/
def metodo_final (dates : List ℤ) : String :=
  if condicion_ajuste dates then
    "modelo_ajustado_tendencia_" ++ toString (ajuste_dias dates)
  else (parametros_prediccion dates).metodo

/-- fecha_base_prediccion = ultima_fecha + timedelta(days=promedio)
(main.py line 313), before the trend adjustment. -/
def fecha_base (dates : List ℤ) : ℤ :=
  maxFecha dates + (parametros_prediccion dates).promedio

/-- metadatos["ultimo_ciclo"] (main.py line 335): the difference of the
two last elements of the ascending sort, i.e. the maximum minus the
maximum of the list with one occurrence of the maximum removed. -/
def ultimo_ciclo_de (dates : List ℤ) : Option ℤ :=
  if dates.length < 2 then none
  else some (maxFecha dates - maxFecha (dates.erase (maxFecha dates)))

/-- The successful result of predecir_proximo_ciclo: the predicted date,
the confidence range, and the metadatos entries the claims mention
(main.py lines 312-338). -/
structure Prediccion where
  fecha : ℤ
  rango_min : ℤ
  rango_max : ℤ
  metodo : String
  promedio_ciclo : ℤ
  desviacion_estandar : ℤ
  tendencia : Option ℚ
  margen_error : ℤ
  ciclos_analizados : ℤ
  ultimo_ciclo : Option ℤ
deriving DecidableEq

/-- The record built by predecir_proximo_ciclo on a non-empty list of
valid dates (main.py lines 312-338).  len(fechas) equals the length of
the input list of valid dates, duplicates included. -/
def prediccion_de (dates : List ℤ) : Prediccion :=
  let q := parametros_prediccion dates
  let fecha := fecha_base dates + ajuste_dias dates
  let margen := min 5 q.desviacion
  ⟨fecha, fecha - margen, fecha + margen, metodo_final dates, q.promedio,
    q.desviacion, q.tendencia, margen, (dates.length : ℤ) - 1, ultimo_ciclo_de dates⟩

/-- predecir_proximo_ciclo (main.py lines 284-338).  None exactly when
the patient has no row with a valid date (df.empty at line 291, or
fechas.empty at line 296: with the input given as the list of valid
dates, both are its emptiness). -/
def predecir_proximo_ciclo (dates : List ℤ) : Option Prediccion :=
  if dates = [] then none
  else some (prediccion_de dates)

/-- The phase table of calcular_fases_ciclo (main.py lines 151-170):
menstrual duration as given, ovulation fixed at 2 days, follicular
initially 9 days, luteal the remainder; a luteal remainder below 10 is
raised to 10 and follicular recomputed to keep the total. -/
def construir_fases (ultima_fecha promedio duracion_menstrual : ℤ) : List Intervalo :=
  let duracion_ovulacion : ℤ := 2
  let duracion_lutea : ℤ := promedio - (duracion_menstrual + 9 + duracion_ovulacion)
  let duracion_folicular : ℤ :=
    if duracion_lutea < 10 then promedio - (duracion_menstrual + duracion_ovulacion + 10)
    else 9
  [⟨Fase.Menstrual, ultima_fecha, ultima_fecha + duracion_menstrual - 1⟩,
   ⟨Fase.Folicular, ultima_fecha + duracion_menstrual,
     ultima_fecha + duracion_menstrual + duracion_folicular - 1⟩,
   ⟨Fase.Ovulacion, ultima_fecha + duracion_menstrual + duracion_folicular,
     ultima_fecha + duracion_menstrual + duracion_folicular + duracion_ovulacion - 1⟩,
   ⟨Fase.Lutea, ultima_fecha + duracion_menstrual + duracion_folicular + duracion_ovulacion,
     ultima_fecha + promedio - 1⟩]

/-- The dictionary returned by calcular_fases_ciclo (main.py lines
176-186), restricted to the entries the claims mention. -/
structure DatosCiclo where
  promedio : ℤ
  desviacion : Option ℤ
  duracion_menstrual : ℤ
  fases : List Intervalo
  ultima_fecha : ℤ
  siguiente_periodo : ℤ
  rango_confianza : Option (ℤ × ℤ)
  metodo : String
deriving DecidableEq

/-- calcular_fases_ciclo (main.py lines 124-186), on the patient's valid
dates and valid recorded durations.  The fallback branch (lines
136-142, taken when predecir_proximo_ciclo returns no date) is kept for
fidelity although it is unreachable once the date list is non-empty. -/
def calcular_fases_ciclo (dates : List ℤ) (duraciones : List ℤ) : Option DatosCiclo :=
  if dates = [] then none
  else
    let duracion_menstrual := obtener_duracion_menstrual_optima duraciones
    let ultima_fecha := maxFecha dates
    match predecir_proximo_ciclo dates with
    | none =>
      let promedio := match calcular_promedio_ciclo dates with
        | none => 28
        | some pr => pr.1
      some ⟨promedio, none, duracion_menstrual,
        construir_fases ultima_fecha promedio duracion_menstrual,
        ultima_fecha, ultima_fecha + promedio, none, "fallback_simple"⟩
    | some p =>
      some ⟨p.promedio_ciclo, some p.desviacion_estandar, duracion_menstrual,
        construir_fases ultima_fecha p.promedio_ciclo duracion_menstrual,
        ultima_fecha, p.fecha, some (p.rango_min, p.rango_max), p.metodo⟩

/-- The table lookup of graficar_fases (main.py lines 391-395): the
phase of the first interval whose inclusive range contains the date. -/
def fase_en_tabla (fases : List Intervalo) (fecha : ℤ) : Option Fase :=
  (fases.find? (fun I => decide (I.inicio ≤ fecha) && decide (fecha ≤ I.fin))).map Intervalo.fase

/-- dia_ciclo of graficar_fases (main.py lines 399-400):
dias % promedio for a non-negative offset, and
promedio + (dias % promedio) for a negative offset.  Python's % on a
positive modulus is mathematical modulo, as is Lean's Int.emod. -/
def dia_ciclo_codigo (ultima_fecha promedio fecha : ℤ) : ℤ :=
  let dias_desde_inicio := fecha - ultima_fecha
  if 0 ≤ dias_desde_inicio then dias_desde_inicio % promedio
  else promedio + dias_desde_inicio % promedio

/-- The threshold mapping of graficar_fases (main.py lines 402-409),
with the source's non-strict comparisons at the Folicular and Ovulación
boundaries. -/
def fase_teorica (duracion_menstrual dia_ciclo : ℤ) : Fase :=
  if dia_ciclo < duracion_menstrual then Fase.Menstrual
  else if dia_ciclo ≤ duracion_menstrual + 9 then Fase.Folicular
  else if dia_ciclo ≤ duracion_menstrual + 11 then Fase.Ovulacion
  else Fase.Lutea

/-- The date-to-phase resolution of graficar_fases for one date
(main.py lines 389-411): the table lookup, with the periodic formula as
fallback for dates in no computed interval. -/
def fase_de_fecha (datos : DatosCiclo) (fecha : ℤ) : Fase :=
  match fase_en_tabla datos.fases fecha with
  | some f => f
  | none => fase_teorica datos.duracion_menstrual
      (dia_ciclo_codigo datos.ultima_fecha datos.promedio fecha)

/-- Modelled from the spec: the day-in-cycle formula the claims state,
day_in_cycle = ((query_date - anchor) mod mean_length), normalized into
[0, mean_length) also for dates before the anchor (true mathematical
modulo).  Stated for comparison with dia_ciclo_codigo. -/
def dia_ciclo_spec (ultima_fecha promedio fecha : ℤ) : ℤ :=
  (fecha - ultima_fecha) % promedio

/-- Modelled from the spec: the cumulative-threshold phase mapping the
claims state, with all thresholds strict (Menstrual below
menstrual_duration, Folicular below menstrual_duration + 9, Ovulation
below menstrual_duration + 11, Luteal otherwise).  Stated for
comparison with fase_teorica. -/
def fase_teorica_spec (duracion_menstrual dia_ciclo : ℤ) : Fase :=
  if dia_ciclo < duracion_menstrual then Fase.Menstrual
  else if dia_ciclo < duracion_menstrual + 9 then Fase.Folicular
  else if dia_ciclo < duracion_menstrual + 11 then Fase.Ovulacion
  else Fase.Lutea

/-- The invariant claim C1 states of the phase table: exactly the four
phases in the fixed order, each interval starting the day after the
previous one ends, pairwise disjoint day-sets, the days covered being
exactly the mean_length consecutive days from the anchor, the Luteal
interval ending at anchor + mean_length - 1 with duration at least 10. -/
def fases_invariante (u p m : ℤ) : Prop :=
  (construir_fases u p m).map Intervalo.fase =
    [Fase.Menstrual, Fase.Folicular, Fase.Ovulacion, Fase.Lutea] ∧
  List.Chain' (fun a b => b.inicio = a.fin + 1) (construir_fases u p m) ∧
  List.Pairwise (fun a b => dias a ∩ dias b = ∅) (construir_fases u p m) ∧
  (construir_fases u p m).foldr (fun I s => dias I ∪ s) ∅ = Finset.Icc u (u + p - 1) ∧
  ((construir_fases u p m).getLastD ⟨Fase.Lutea, 0, 0⟩).fin = u + p - 1 ∧
  10 ≤ duracion ((construir_fases u p m).getLastD ⟨Fase.Lutea, 0, 0⟩)

/-- One row of the reportes table (main.py lines 65-68). -/
structure Reporte where
  codigo : String
  fecha : ℤ
  duracion : ℤ
deriving DecidableEq

/-- The duration normalization of registrar_periodo (main.py lines
58-59): None or a value below 1 becomes the default 5. -/
def normalizar_duracion (duracion : Option ℤ) : ℤ :=
  match duracion with
  | none => 5
  | some k => if k < 1 then 5 else k

/-- registrar_periodo (main.py lines 57-80), with the pacientes table
as its list of registered codes: an unknown code returns the reports
unchanged (line 63); a known code appends the new normalized row (the
empty-table branch of line 72 and the concat of line 78 both append). -/
def registrar_periodo (reportes : List Reporte) (pacientes : List String)
    (codigo : String) (fecha : ℤ) (duracion : Option ℤ) : List Reporte :=
  if codigo ∈ pacientes then
    reportes ++ [⟨codigo, fecha, normalizar_duracion duracion⟩]
  else reportes

theorem pyround_mem (q : ℚ) : pyround q = ⌊q⌋ ∨ pyround q = ⌊q⌋ + 1 := by
  unfold pyround
  split_ifs <;> simp

theorem le_pyround (a : ℤ) (q : ℚ) (h : (a : ℚ) ≤ q) : a ≤ pyround q := by
  have hf : a ≤ ⌊q⌋ := Int.le_floor.mpr h
  rcases pyround_mem q with h1 | h1 <;> omega

theorem pyround_le (q : ℚ) (b : ℤ) (h : q ≤ (b : ℚ)) : pyround q ≤ b := by
  have hfb : ⌊q⌋ ≤ b := by
    have h2 := Int.floor_le_floor h
    simpa using h2
  unfold pyround
  split_ifs with h1 h2 h3
  · exact hfb
  · have hlt : (⌊q⌋ : ℚ) < q := by linarith [not_lt.mp h1]
    have hlt2 : (⌊q⌋ : ℚ) < (b : ℚ) := lt_of_lt_of_le hlt h
    have : ⌊q⌋ < b := by exact_mod_cast hlt2
    omega
  · exact hfb
  · have hlt : (⌊q⌋ : ℚ) < q := by linarith [not_lt.mp h1]
    have hlt2 : (⌊q⌋ : ℚ) < (b : ℚ) := lt_of_lt_of_le hlt h
    have : ⌊q⌋ < b := by exact_mod_cast hlt2
    omega

theorem sqrtCandidato_nonneg (v : ℚ) : 0 ≤ sqrtCandidato v := by
  unfold sqrtCandidato
  positivity

theorem pyroundSqrt_nonneg (v : ℚ) : 0 ≤ pyroundSqrt v := by
  have h := sqrtCandidato_nonneg v
  unfold pyroundSqrt
  split_ifs <;> omega

theorem desviacion_difs_nonneg (difs : List ℚ) : 0 ≤ desviacion_difs difs := by
  unfold desviacion_difs
  split_ifs
  · exact le_refl 0
  · exact pyroundSqrt_nonneg _

theorem le_mean (a : ℤ) (l : List ℚ) (hne : l ≠ []) (h : ∀ x ∈ l, (a : ℚ) ≤ x) :
    (a : ℚ) ≤ mean l := by
  have hlen : 0 < (l.length : ℚ) := by
    have := List.length_pos.mpr hne
    exact_mod_cast this
  have hsum : (l.length : ℚ) * (a : ℚ) ≤ l.sum := by
    clear hne hlen
    induction l with
    | nil => simp
    | cons x t ih =>
      have hx := h x (List.mem_cons_self x t)
      have ht := ih (fun y hy => h y (List.mem_cons_of_mem x hy))
      simp only [List.length_cons, List.sum_cons]
      push_cast
      linarith
  rw [mean, le_div_iff₀ hlen]
  linarith

/-- C1 (counterexample): with anchor 0, mean_length 21 and
menstrual_duration 10 the invariant fails: the luteal clamp makes the
follicular duration negative, the Menstrual interval [0, 9] and the
Ovulación interval [9, 10] share day 9, so the table is not
non-overlapping. -/
theorem construir_fases_degenerado : ¬ fases_invariante 0 21 10 := by
  rintro ⟨-, -, hpair, -⟩
  have hlist : construir_fases 0 21 10 =
      [⟨Fase.Menstrual, 0, 9⟩, ⟨Fase.Folicular, 10, 8⟩,
       ⟨Fase.Ovulacion, 9, 10⟩, ⟨Fase.Lutea, 11, 20⟩] := by
    simp only [construir_fases]
    norm_num
  rw [hlist, List.pairwise_cons] at hpair
  have h9 := hpair.1 ⟨Fase.Ovulacion, 9, 10⟩ (by simp)
  have hmem : (9 : ℤ) ∈ dias ⟨Fase.Menstrual, 0, 9⟩ ∩ dias ⟨Fase.Ovulacion, 9, 10⟩ := by
    simp [dias]
  rw [h9] at hmem
  exact absurd hmem (Finset.not_mem_empty 9)

/-- C1 (amended): for every anchor, and every mean_length and
menstrual_duration with 0 ≤ menstrual_duration and
menstrual_duration + 12 ≤ mean_length, the table has exactly the four
phases in the fixed order, contiguous and non-overlapping, covering
exactly mean_length consecutive days from the anchor, with the Luteal
interval ending at anchor + mean_length - 1 and lasting at least 10
days. -/
theorem construir_fases_invariante_acotado (u p m : ℤ) (h0 : 0 ≤ m) (h1 : m + 12 ≤ p) :
    fases_invariante u p m := by
  have hdis : ∀ (f1 f2 : Fase) (a b c d : ℤ), b < c →
      dias ⟨f1, a, b⟩ ∩ dias ⟨f2, c, d⟩ = ∅ := by
    intro f1 f2 a b c d hbc
    ext x
    simp only [dias, Finset.mem_inter, Finset.mem_Icc, Finset.not_mem_empty, iff_false, not_and]
    omega
  unfold fases_invariante
  simp only [construir_fases]
  split_ifs with hc
  all_goals {
    refine ⟨rfl, ?_, ?_, ?_, rfl, ?_⟩
    · simp only [List.chain'_cons, List.chain'_singleton, and_true]
      omega
    · refine List.Pairwise.cons ?_ (List.Pairwise.cons ?_ (List.Pairwise.cons ?_
        (List.Pairwise.cons (by simp) List.Pairwise.nil)))
      all_goals {
        intro b hb
        fin_cases hb <;> (apply hdis; omega)
      }
    · ext x
      simp only [dias, List.foldr_cons, List.foldr_nil, Finset.mem_union, Finset.mem_Icc,
        Finset.not_mem_empty, or_false]
      omega
    · simp only [List.getLastD_cons, List.getLastD_nil, duracion]
      omega
  }

/-- C1 (witness): the amended invariant at anchor 0, mean_length 28,
menstrual_duration 5. -/
theorem construir_fases_invariante_acotado_witness :
    (0 : ℤ) ≤ 5 ∧ (5 : ℤ) + 12 ≤ 28 ∧ fases_invariante 0 28 5 :=
  ⟨by decide, by decide, construir_fases_invariante_acotado 0 28 5 (by decide) (by decide)⟩

theorem difsQ_ne_nil (dates : List ℤ) (h : 2 ≤ (fechasOrdenadas dates).length) :
    difsQ dates ≠ [] := by
  have hlen : (difsDe dates).length = (fechasOrdenadas dates).length - 1 := by
    unfold difsDe
    rw [List.length_zipWith, List.length_tail]
    omega
  intro hnil
  rw [difsQ, List.map_eq_nil_iff] at hnil
  rw [hnil] at hlen
  simp at hlen
  omega

theorem calcular_estadisticas_eq (dates : List ℤ) (h : 2 ≤ (fechasOrdenadas dates).length) :
    calcular_estadisticas_ciclo_avanzado dates =
      some ⟨pyround (max 21 (min 35 (promedio_ponderado_difs (difsQ dates) +
              tendencia_difs (difsQ dates) * (3 / 10)))),
            desviacion_difs (difsQ dates), tendencia_difs (difsQ dates)⟩ := by
  unfold calcular_estadisticas_ciclo_avanzado
  rw [if_neg (by omega), if_neg (difsQ_ne_nil dates h)]

theorem pyround_clamp_mem (x : ℚ) :
    21 ≤ pyround (max 21 (min 35 x)) ∧ pyround (max 21 (min 35 x)) ≤ 35 := by
  constructor
  · apply le_pyround
    have : (21 : ℚ) ≤ max 21 (min 35 x) := le_max_left _ _
    exact_mod_cast this
  · apply pyround_le
    have : max 21 (min 35 x) ≤ (35 : ℚ) := max_le (by norm_num) (min_le_left _ _)
    exact_mod_cast this

theorem estadisticas_bounds (dates : List ℤ) (e : Estadisticas)
    (h : calcular_estadisticas_ciclo_avanzado dates = some e) :
    21 ≤ e.promedio ∧ e.promedio ≤ 35 ∧ 0 ≤ e.desviacion := by
  unfold calcular_estadisticas_ciclo_avanzado at h
  split_ifs at h
  rw [Option.some.injEq] at h
  subst h
  exact ⟨(pyround_clamp_mem _).1, (pyround_clamp_mem _).2, desviacion_difs_nonneg _⟩

/-- C2 (confirmed): for every input with at least 2 distinct valid dates
after sorting and deduplication, calcular_estadisticas_ciclo_avanzado
returns statistics with an integer mean_length in [21, 35] and a
non-negative integer spread. -/
theorem estadisticas_en_rango (dates : List ℤ) (h : 2 ≤ (fechasOrdenadas dates).length) :
    ∃ e, calcular_estadisticas_ciclo_avanzado dates = some e ∧
      21 ≤ e.promedio ∧ e.promedio ≤ 35 ∧ 0 ≤ e.desviacion := by
  refine ⟨_, calcular_estadisticas_eq dates h, ?_⟩
  exact estadisticas_bounds dates _ (calcular_estadisticas_eq dates h)

/-- C2 (witness): the claim instantiated at the two distinct dates 0 and 28. -/
theorem estadisticas_en_rango_witness :
    2 ≤ (fechasOrdenadas [0, 28]).length ∧
    ∃ e, calcular_estadisticas_ciclo_avanzado [0, 28] = some e ∧
      21 ≤ e.promedio ∧ e.promedio ≤ 35 ∧ 0 ≤ e.desviacion :=
  ⟨by decide, estadisticas_en_rango [0, 28] (by decide)⟩

theorem predecir_eq (dates : List ℤ) (h : dates ≠ []) :
    predecir_proximo_ciclo dates = some (prediccion_de dates) := by
  unfold predecir_proximo_ciclo
  rw [if_neg h]

theorem parametros_default (dates : List ℤ) (h : (fechasOrdenadas dates).length < 2) :
    parametros_prediccion dates = ⟨28, 2, none, "valor_default"⟩ := by
  unfold parametros_prediccion calcular_estadisticas_ciclo_avanzado
  rw [if_pos h]

theorem condicion_ajuste_default (dates : List ℤ) (h : (fechasOrdenadas dates).length < 2) :
    condicion_ajuste dates = false := by
  unfold condicion_ajuste
  rw [parametros_default dates h]

/-- C5 (confirmed): predecir_proximo_ciclo fails exactly when no valid
date exists; with at least one date but fewer than two distinct dates
it returns the fallback statistics mean 28, spread 2 and the default
method tag; in every successful case the predicted date is the last
date plus the mean length plus the trend adjustment (which is the
override amount, 0 when no override applies), and cycles_analyzed is
max(0, number of dates - 1). -/
theorem predecir_contrato (dates : List ℤ) :
    (predecir_proximo_ciclo dates = none ↔ dates = []) ∧
    (dates ≠ [] → (fechasOrdenadas dates).length < 2 →
      ∃ p, predecir_proximo_ciclo dates = some p ∧ p.promedio_ciclo = 28 ∧
        p.desviacion_estandar = 2 ∧ p.metodo = "valor_default") ∧
    (dates ≠ [] → ∃ p, predecir_proximo_ciclo dates = some p ∧
      p.fecha = maxFecha dates + p.promedio_ciclo + ajuste_dias dates ∧
      p.ciclos_analizados = max 0 ((dates.length : ℤ) - 1)) := by
  refine ⟨?_, ?_, ?_⟩
  · constructor
    · intro h
      by_contra hne
      rw [predecir_eq dates hne] at h
      exact Option.noConfusion h
    · intro h
      rw [h]
      rfl
  · intro hne hlen
    refine ⟨prediccion_de dates, predecir_eq dates hne, ?_, ?_, ?_⟩
    · show (parametros_prediccion dates).promedio = 28
      rw [parametros_default dates hlen]
    · show (parametros_prediccion dates).desviacion = 2
      rw [parametros_default dates hlen]
    · show metodo_final dates = "valor_default"
      unfold metodo_final
      rw [condicion_ajuste_default dates hlen, parametros_default dates hlen]
      simp
  · intro hne
    refine ⟨prediccion_de dates, predecir_eq dates hne, rfl, ?_⟩
    have hpos : 0 < dates.length := List.length_pos.mpr hne
    show (dates.length : ℤ) - 1 = max 0 ((dates.length : ℤ) - 1)
    omega

/-- C5 (witness): the contract instantiated at the single date 5 (one
valid date, fewer than two distinct dates). -/
theorem predecir_contrato_witness :
    (predecir_proximo_ciclo [5] = none ↔ [(5 : ℤ)] = []) ∧
    (∃ p, predecir_proximo_ciclo [5] = some p ∧ p.promedio_ciclo = 28 ∧
      p.desviacion_estandar = 2 ∧ p.metodo = "valor_default") ∧
    (∃ p, predecir_proximo_ciclo [5] = some p ∧
      p.fecha = maxFecha [5] + p.promedio_ciclo + ajuste_dias [5] ∧
      p.ciclos_analizados = max 0 (([(5 : ℤ)].length : ℤ) - 1)) := by
  have h := predecir_contrato [5]
  exact ⟨h.1, h.2.1 (by decide) (by decide), h.2.2 (by decide)⟩

/-- C6 (confirmed): the trend override applies exactly when the trend
exists with absolute value above 0.5 and at least 4 dates exist; when
it applies, round(trend * 0.5) days are added to the base predicted
date and the method tag records the adjustment; the confidence margin
is min(5, spread) and the confidence bounds are symmetric around the
final predicted date. -/
theorem predecir_ajuste_margen (dates : List ℤ) (hne : dates ≠ []) :
    ∃ p, predecir_proximo_ciclo dates = some p ∧
      p.margen_error = min 5 p.desviacion_estandar ∧
      p.rango_min = p.fecha - p.margen_error ∧
      p.rango_max = p.fecha + p.margen_error ∧
      (∀ t, p.tendencia = some t →
        ((1 / 2 < |t| ∧ 4 ≤ dates.length) ↔ condicion_ajuste dates = true)) ∧
      (condicion_ajuste dates = true →
        ∃ t, p.tendencia = some t ∧
          p.fecha = fecha_base dates + pyround (t * (1 / 2)) ∧
          p.metodo = "modelo_ajustado_tendencia_" ++ toString (pyround (t * (1 / 2)))) ∧
      (condicion_ajuste dates = false →
        p.fecha = fecha_base dates ∧ p.metodo = (parametros_prediccion dates).metodo) := by
  refine ⟨prediccion_de dates, predecir_eq dates hne, rfl, rfl, rfl, ?_, ?_, ?_⟩
  · intro t ht
    replace ht : (parametros_prediccion dates).tendencia = some t := ht
    unfold condicion_ajuste
    rw [ht]
    simp only [Bool.and_eq_true, decide_eq_true_eq]
    constructor
    · rintro ⟨h1, h2⟩
      refine ⟨⟨?_, h1⟩, h2⟩
      intro h0
      rw [h0] at h1
      norm_num at h1
    · rintro ⟨⟨-, h1⟩, h2⟩
      exact ⟨h1, h2⟩
  · intro hc
    have ht : ∃ t, (parametros_prediccion dates).tendencia = some t := by
      unfold condicion_ajuste at hc
      rcases h : (parametros_prediccion dates).tendencia with _ | t
      · rw [h] at hc
        exact Bool.noConfusion hc
      · exact ⟨t, rfl⟩
    obtain ⟨t, ht⟩ := ht
    have haj : ajuste_dias dates = pyround (t * (1 / 2)) := by
      unfold ajuste_dias
      rw [if_pos hc, ht]
    refine ⟨t, ht, ?_, ?_⟩
    · show fecha_base dates + ajuste_dias dates = fecha_base dates + pyround (t * (1 / 2))
      rw [haj]
    · show metodo_final dates = _
      unfold metodo_final
      rw [if_pos hc, haj]
  · intro hc
    have haj : ajuste_dias dates = 0 := by
      unfold ajuste_dias
      rw [hc]
      simp
    constructor
    · show fecha_base dates + ajuste_dias dates = fecha_base dates
      rw [haj, add_zero]
    · show metodo_final dates = (parametros_prediccion dates).metodo
      unfold metodo_final
      rw [hc]
      simp

/-- C6 (witness): the contract instantiated at the dates 0 and 28. -/
theorem predecir_ajuste_margen_witness :
    ∃ p, predecir_proximo_ciclo [0, 28] = some p ∧
      p.margen_error = min 5 p.desviacion_estandar ∧
      p.rango_min = p.fecha - p.margen_error ∧
      p.rango_max = p.fecha + p.margen_error ∧
      (∀ t, p.tendencia = some t →
        ((1 / 2 < |t| ∧ 4 ≤ ([(0 : ℤ), 28]).length) ↔ condicion_ajuste [0, 28] = true)) ∧
      (condicion_ajuste [0, 28] = true →
        ∃ t, p.tendencia = some t ∧
          p.fecha = fecha_base [0, 28] + pyround (t * (1 / 2)) ∧
          p.metodo = "modelo_ajustado_tendencia_" ++ toString (pyround (t * (1 / 2)))) ∧
      (condicion_ajuste [0, 28] = false →
        p.fecha = fecha_base [0, 28] ∧ p.metodo = (parametros_prediccion [0, 28]).metodo) :=
  predecir_ajuste_margen [0, 28] (by decide)

theorem pyround_int (n : ℤ) : pyround ((n : ℚ)) = n := by
  unfold pyround
  rw [Int.floor_intCast]
  norm_num

theorem stats_cero_veintiocho : calcular_estadisticas_ciclo_avanzado [0, 28] = some ⟨28, 0, 0⟩ := by
  have h1 : fechasOrdenadas [0, 28] = [0, 28] := by decide
  have h2 : difsQ [0, 28] = [(28 : ℚ)] := by
    have hd : difsDe [0, 28] = [28] := by decide
    rw [difsQ, hd]
    norm_num
  have hpp : promedio_ponderado_difs [(28 : ℚ)] = 28 := by
    unfold promedio_ponderado_difs
    norm_num
  have htd : tendencia_difs [(28 : ℚ)] = 0 := by
    unfold tendencia_difs
    norm_num
  have hdd : desviacion_difs [(28 : ℚ)] = 0 := by
    unfold desviacion_difs
    norm_num
  simp only [calcular_estadisticas_ciclo_avanzado]
  rw [if_neg (by rw [h1]; norm_num), if_neg (by rw [h2]; simp), h2, hpp, htd, hdd]
  norm_num
  rw [show ((28 : ℚ)) = ((28 : ℤ) : ℚ) by norm_num, pyround_int]

theorem parametros_cero_veintiocho :
    parametros_prediccion [0, 28] = ⟨28, 0, some 0, "modelo_ponderado"⟩ := by
  unfold parametros_prediccion
  rw [stats_cero_veintiocho]

theorem condicion_cero_veintiocho : condicion_ajuste [0, 28] = false := by
  unfold condicion_ajuste
  rw [parametros_cero_veintiocho]
  simp

theorem prediccion_cero_veintiocho :
    prediccion_de [0, 28] = ⟨56, 56, 56, "modelo_ponderado", 28, 0, some 0, 0, 1, some 28⟩ := by
  have haj : ajuste_dias [0, 28] = 0 := by
    unfold ajuste_dias
    rw [condicion_cero_veintiocho]
    simp
  have hfb : fecha_base [0, 28] = 56 := by
    unfold fecha_base
    rw [parametros_cero_veintiocho]
    decide
  have hmf : metodo_final [0, 28] = "modelo_ponderado" := by
    unfold metodo_final
    rw [condicion_cero_veintiocho, parametros_cero_veintiocho]
    simp
  simp only [prediccion_de]
  rw [parametros_cero_veintiocho, haj, hfb, hmf]
  decide

theorem fases_cero_veintiocho :
    calcular_fases_ciclo [0, 28] [] =
      some ⟨28, some 0, 5, construir_fases 28 28 5, 28, 56, some (56, 56), "modelo_ponderado"⟩ := by
  unfold calcular_fases_ciclo
  rw [if_neg (by decide), predecir_eq [0, 28] (by decide), prediccion_cero_veintiocho]
  decide

/-- C3 (code_bug evaluation): with history dates 0 and 28 (anchor 28,
mean 28, menstrual duration 5), the query date 1 lies in no table
interval; the code's dia_ciclo is 29, outside [0, 28), and the phase
returned is Lútea, while the claim's normalized day is 1 and its phase
is Menstrual.  At the query date 70 (theoretical day 14) the code's
non-strict threshold returns Folicular while the claim's strict
threshold gives Ovulation. -/
theorem fase_teorica_divergencia :
    (calcular_fases_ciclo [0, 28] []).map (fun d => fase_de_fecha d 1) = some Fase.Lutea ∧
    (calcular_fases_ciclo [0, 28] []).map
      (fun d => dia_ciclo_codigo d.ultima_fecha d.promedio 1) = some 29 ∧
    dia_ciclo_spec 28 28 1 = 1 ∧
    fase_teorica_spec 5 (dia_ciclo_spec 28 28 1) = Fase.Menstrual ∧
    (calcular_fases_ciclo [0, 28] []).map (fun d => fase_de_fecha d 70) = some Fase.Folicular ∧
    fase_teorica_spec 5 (dia_ciclo_spec 28 28 70) = Fase.Ovulacion := by
  rw [fases_cero_veintiocho]
  decide

/-- C4 (counterexample): with history dates 0 and 28 and mean length 28,
the query date -27 predates all history; the claim demands the anchor
be back-projected from the earliest date 0 to -28, giving day 1 and
phase Menstrual by the periodic formula, but the code anchors at the
latest date 28 and returns Lútea. -/
theorem resolucion_sin_retroproyeccion :
    (calcular_fases_ciclo [0, 28] []).map (fun d => fase_de_fecha d (-27)) = some Fase.Lutea ∧
    fase_teorica_spec 5 ((-27 - 0) % 28) = Fase.Menstrual ∧
    Fase.Lutea ≠ Fase.Menstrual := by
  rw [fases_cero_veintiocho]
  decide

/-- C7 (counterexample): with exactly one historical date,
predecir_proximo_ciclo does not fail: it returns the full default
prediction (mean 28, spread 2, method "valor_default", predicted date
0 + 28) rather than the insufficient-data signal. -/
theorem predecir_un_dato_no_falla :
    predecir_proximo_ciclo [0] =
      some ⟨28, 26, 30, "valor_default", 28, 2, none, 2, 0, none⟩ ∧
    predecir_proximo_ciclo [0] ≠ none := by
  decide

theorem fechasOrdenadas_singleton (d : ℤ) : fechasOrdenadas [d] = [d] := by
  simp [fechasOrdenadas, List.insertionSort, List.orderedInsert]

/-- C7 (amended): with exactly one historical date,
predecir_proximo_ciclo succeeds with the fallback statistics (mean 28,
spread 2, default method tag, predicted date the date plus 28), and
calcular_fases_ciclo succeeds, producing the phase table of the 28-day
default cycle anchored at that date. -/
theorem un_dato_prediccion_default (d : ℤ) (duraciones : List ℤ) :
    (∃ p, predecir_proximo_ciclo [d] = some p ∧ p.promedio_ciclo = 28 ∧
      p.desviacion_estandar = 2 ∧ p.metodo = "valor_default" ∧ p.fecha = d + 28) ∧
    (∃ datos, calcular_fases_ciclo [d] duraciones = some datos ∧
      datos.promedio = 28 ∧ datos.ultima_fecha = d ∧
      datos.fases = construir_fases d 28 (obtener_duracion_menstrual_optima duraciones)) := by
  have hlen : (fechasOrdenadas [d]).length < 2 := by
    rw [fechasOrdenadas_singleton]
    norm_num
  have hq := parametros_default [d] hlen
  have hcond := condicion_ajuste_default [d] hlen
  have haj : ajuste_dias [d] = 0 := by
    unfold ajuste_dias
    rw [hcond]
    simp
  have hne : [d] ≠ ([] : List ℤ) := by simp
  have hmax : maxFecha [d] = d := rfl
  have hfb : fecha_base [d] = d + 28 := by
    unfold fecha_base
    rw [hq, hmax]
  constructor
  · refine ⟨prediccion_de [d], predecir_eq [d] hne, ?_, ?_, ?_, ?_⟩
    · show (parametros_prediccion [d]).promedio = 28
      rw [hq]
    · show (parametros_prediccion [d]).desviacion = 2
      rw [hq]
    · show metodo_final [d] = "valor_default"
      unfold metodo_final
      rw [hcond, hq]
      simp
    · show fecha_base [d] + ajuste_dias [d] = d + 28
      rw [hfb, haj, add_zero]
  · unfold calcular_fases_ciclo
    rw [if_neg hne, predecir_eq [d] hne]
    refine ⟨_, rfl, ?_, ?_, ?_⟩
    · show (parametros_prediccion [d]).promedio = 28
      rw [hq]
    · exact hmax
    · show construir_fases (maxFecha [d]) (prediccion_de [d]).promedio_ciclo
          (obtener_duracion_menstrual_optima duraciones) = _
      rw [hmax]
      have : (prediccion_de [d]).promedio_ciclo = 28 := by
        show (parametros_prediccion [d]).promedio = 28
        rw [hq]
      rw [this]

theorem foldl_max_spec (t : List ℤ) : ∀ a : ℤ,
    (t.foldl max a = a ∨ t.foldl max a ∈ t) ∧ a ≤ t.foldl max a ∧
      ∀ x ∈ t, x ≤ t.foldl max a := by
  induction t with
  | nil => exact fun a => ⟨Or.inl rfl, le_refl a, fun x hx => absurd hx (List.not_mem_nil x)⟩
  | cons b t ih =>
    intro a
    have h := ih (max a b)
    refine ⟨?_, ?_, ?_⟩
    · rcases h.1 with h1 | h1
      · rcases max_choice a b with hm | hm
        · rw [List.foldl_cons, h1, hm]
          exact Or.inl rfl
        · rw [List.foldl_cons, h1, hm]
          exact Or.inr (List.mem_cons_self b t)
      · exact Or.inr (List.mem_cons_of_mem b h1)
    · exact le_trans (le_max_left a b) h.2.1
    · intro x hx
      rcases List.mem_cons.mp hx with rfl | hx
      · exact le_trans (le_max_right a x) h.2.1
      · exact h.2.2 x hx

theorem maxFecha_mem (dates : List ℤ) (h : dates ≠ []) : maxFecha dates ∈ dates := by
  match dates with
  | [] => exact absurd rfl h
  | a :: t =>
    show t.foldl max a ∈ a :: t
    rcases (foldl_max_spec t a).1 with h1 | h1
    · rw [h1]
      exact List.mem_cons_self a t
    · exact List.mem_cons_of_mem a h1

theorem le_maxFecha (dates : List ℤ) (x : ℤ) (hx : x ∈ dates) : x ≤ maxFecha dates := by
  match dates with
  | [] => exact absurd hx (List.not_mem_nil x)
  | a :: t =>
    show x ≤ t.foldl max a
    rcases List.mem_cons.mp hx with rfl | hx
    · exact (foldl_max_spec t x).2.1
    · exact (foldl_max_spec t a).2.2 x hx

theorem getLastD_mem (l : List ℤ) (d : ℤ) (h : l ≠ []) : l.getLastD d ∈ l := by
  rw [List.getLastD_eq_getLast?, List.getLast?_eq_getLast l h]
  exact List.getLast_mem h

theorem obtener_duracion_ge_one (duraciones : List ℤ) (h : ∀ x ∈ duraciones, 1 ≤ x) :
    1 ≤ obtener_duracion_menstrual_optima duraciones := by
  simp only [obtener_duracion_menstrual_optima]
  split_ifs with h1 h2 h3
  · norm_num
  · obtain ⟨d, rfl⟩ := List.length_eq_one.mp h2
    exact h d (List.mem_cons_self d [])
  · exact h _ (getLastD_mem duraciones 0 h1)
  · apply le_pyround
    apply le_mean
    · simp [h1]
    · intro x hx
      obtain ⟨y, hy, rfl⟩ := List.mem_map.mp hx
      exact_mod_cast h y hy

theorem parametros_promedio_acotado (dates : List ℤ) :
    21 ≤ (parametros_prediccion dates).promedio ∧ (parametros_prediccion dates).promedio ≤ 35 := by
  unfold parametros_prediccion
  rcases h : calcular_estadisticas_ciclo_avanzado dates with _ | e
  · norm_num
  · have hb := estadisticas_bounds dates e h
    exact ⟨hb.1, hb.2.1⟩

theorem construir_fases_inicio_ge (u p m : ℤ) (hm : 1 ≤ m) (hp : 21 ≤ p) :
    ∀ I ∈ construir_fases u p m, u ≤ I.inicio := by
  intro I hI
  simp only [construir_fases] at hI
  split_ifs at hI with hc
  all_goals {
    fin_cases hI <;> (dsimp only; omega)
  }

theorem fase_en_tabla_none (fases : List Intervalo) (fecha : ℤ)
    (h : ∀ I ∈ fases, ¬ I.inicio ≤ fecha) : fase_en_tabla fases fecha = none := by
  unfold fase_en_tabla
  rw [List.find?_eq_none.mpr]
  · rfl
  · intro I hI
    simp only [Bool.and_eq_true, decide_eq_true_eq, not_and]
    intro hle
    exact absurd hle (h I hI)

/-- C4 (amended): the date-to-phase resolution always anchors at the
most recent (latest) historical date, not at the most recent date at or
before the query; for every query date earlier than all recorded dates
it does not fail: no computed interval contains the query, and the
phase returned is the code's periodic fallback formula anchored at the
latest date.  (Durations are at least 1, as registrar_periodo
guarantees for stored rows.) -/
theorem resolucion_ancla_ultima_fecha (dates duraciones : List ℤ) (q : ℤ)
    (hne : dates ≠ []) (hdur : ∀ x ∈ duraciones, 1 ≤ x) (hq : ∀ d ∈ dates, q < d) :
    ∃ datos, calcular_fases_ciclo dates duraciones = some datos ∧
      datos.ultima_fecha ∈ dates ∧ (∀ d ∈ dates, d ≤ datos.ultima_fecha) ∧
      fase_en_tabla datos.fases q = none ∧
      fase_de_fecha datos q =
        fase_teorica datos.duracion_menstrual
          (dia_ciclo_codigo datos.ultima_fecha datos.promedio q) := by
  unfold calcular_fases_ciclo
  rw [if_neg hne, predecir_eq dates hne]
  refine ⟨_, rfl, maxFecha_mem dates hne, le_maxFecha dates, ?_, ?_⟩
  all_goals {
    have hm : 1 ≤ obtener_duracion_menstrual_optima duraciones :=
      obtener_duracion_ge_one duraciones hdur
    have hp : 21 ≤ (parametros_prediccion dates).promedio :=
      (parametros_promedio_acotado dates).1
    have hqu : q < maxFecha dates := hq _ (maxFecha_mem dates hne)
    have hnone : fase_en_tabla (construir_fases (maxFecha dates)
        (prediccion_de dates).promedio_ciclo (obtener_duracion_menstrual_optima duraciones)) q =
        none := by
      apply fase_en_tabla_none
      intro I hI
      have := construir_fases_inicio_ge (maxFecha dates) (prediccion_de dates).promedio_ciclo
        (obtener_duracion_menstrual_optima duraciones) hm hp I hI
      omega
    first
      | exact hnone
      | (unfold fase_de_fecha; rw [hnone])
  }

/-- C4 (witness): the amended claim at the history dates 0 and 28, an
empty duration list, and the query date -3, three days before the
earliest recorded date. -/
theorem resolucion_ancla_ultima_fecha_witness :
    ([(0 : ℤ), 28] ≠ []) ∧ (∀ x ∈ ([] : List ℤ), 1 ≤ x) ∧ (∀ d ∈ [(0 : ℤ), 28], -3 < d) ∧
    ∃ datos, calcular_fases_ciclo [0, 28] [] = some datos ∧
      datos.ultima_fecha ∈ [(0 : ℤ), 28] ∧ (∀ d ∈ [(0 : ℤ), 28], d ≤ datos.ultima_fecha) ∧
      fase_en_tabla datos.fases (-3) = none ∧
      fase_de_fecha datos (-3) =
        fase_teorica datos.duracion_menstrual
          (dia_ciclo_codigo datos.ultima_fecha datos.promedio (-3)) :=
  ⟨by decide, by decide, by decide,
    resolucion_ancla_ultima_fecha [0, 28] [] (-3) (by decide) (by decide) (by decide)⟩

/-- C8 (confirmed): obtener_duracion_menstrual_optima behaves exactly
as the claim states: 5 for the empty sequence, the sole element for a
one-element sequence, and for longer sequences the last recorded
duration when it lies within 1 day of the arithmetic mean of all
recorded durations, otherwise the mean rounded to the nearest integer
(Python round, ties to even). -/
theorem duracion_optima_contrato (l : List ℤ) :
    obtener_duracion_menstrual_optima [] = 5 ∧
    (∀ d : ℤ, obtener_duracion_menstrual_optima [d] = d) ∧
    (2 ≤ l.length →
      obtener_duracion_menstrual_optima l =
        if |(l.getLastD 0 : ℚ) - mean (l.map (Int.cast : ℤ → ℚ))| ≤ 1 then l.getLastD 0
        else pyround (mean (l.map (Int.cast : ℤ → ℚ)))) := by
  refine ⟨rfl, fun d => rfl, ?_⟩
  intro hlen
  match l with
  | [] => simp at hlen
  | [d] => norm_num at hlen
  | a :: b :: t =>
    simp only [obtener_duracion_menstrual_optima]
    rw [if_neg (by simp), if_neg (by simp)]

/-- C8 (witness): the contract at the durations 3 and 5 (mean 4, last
value 5 within 1 day of the mean). -/
theorem duracion_optima_contrato_witness :
    2 ≤ ([3, 5] : List ℤ).length ∧
    obtener_duracion_menstrual_optima [] = 5 ∧
    (∀ d : ℤ, obtener_duracion_menstrual_optima [d] = d) ∧
    obtener_duracion_menstrual_optima [3, 5] =
      (if |(([3, 5] : List ℤ).getLastD 0 : ℚ) -
            mean (([3, 5] : List ℤ).map (Int.cast : ℤ → ℚ))| ≤ 1
       then ([3, 5] : List ℤ).getLastD 0
       else pyround (mean (([3, 5] : List ℤ).map (Int.cast : ℤ → ℚ)))) := by
  have h := duracion_optima_contrato [3, 5]
  exact ⟨by decide, h.1, h.2.1, h.2.2 (by decide)⟩

theorem n_recientes_le (n : ℕ) (h : 4 ≤ n) : n_recientes n ≤ n - 2 := by
  unfold n_recientes
  rw [max_le_iff]
  omega

/-- C9 (confirmed): in the branch for 4 or more cycle-length
differences, max(2, len // 3) ≤ len - 2, so the older head partition
ciclos_antiguos is non-empty and the avg_antiguo fallback that
substitutes the recent average is never taken in that branch. -/
theorem ciclos_antiguos_no_vacios (difs : List ℚ) (h : 4 ≤ difs.length) :
    n_recientes difs.length ≤ difs.length - 2 ∧
    ciclos_antiguos difs ≠ [] ∧
    avg_antiguo difs = mean (ciclos_antiguos difs) := by
  have h1 := n_recientes_le difs.length h
  have h2 : ciclos_antiguos difs ≠ [] := by
    unfold ciclos_antiguos
    intro hnil
    rw [List.take_eq_nil_iff] at hnil
    rcases hnil with hnil | hnil
    · omega
    · rw [hnil] at h
      simp at h
  exact ⟨h1, h2, by unfold avg_antiguo; rw [if_neg h2]⟩

/-- C9 (witness): the claim at the four differences 25, 26, 27, 28. -/
theorem ciclos_antiguos_no_vacios_witness :
    4 ≤ ([25, 26, 27, 28] : List ℚ).length ∧
    (n_recientes ([25, 26, 27, 28] : List ℚ).length ≤ ([25, 26, 27, 28] : List ℚ).length - 2 ∧
      ciclos_antiguos [25, 26, 27, 28] ≠ [] ∧
      avg_antiguo [25, 26, 27, 28] = mean (ciclos_antiguos [25, 26, 27, 28])) :=
  ⟨by decide, ciclos_antiguos_no_vacios [25, 26, 27, 28] (by decide)⟩

/-- C10 (confirmed): registrar_periodo returns the reports unchanged
exactly when the given code is not among the registered patients, and
appends the one new normalized row exactly for a registered code. -/
theorem registrar_contrato (reportes : List Reporte) (pacientes : List String)
    (codigo : String) (fecha : ℤ) (duracion : Option ℤ) :
    (registrar_periodo reportes pacientes codigo fecha duracion = reportes ↔
      codigo ∉ pacientes) ∧
    (codigo ∈ pacientes →
      registrar_periodo reportes pacientes codigo fecha duracion =
        reportes ++ [⟨codigo, fecha, normalizar_duracion duracion⟩]) := by
  unfold registrar_periodo
  by_cases h : codigo ∈ pacientes
  · rw [if_pos h]
    constructor
    · constructor
      · intro heq
        have hlen := congrArg List.length heq
        simp at hlen
      · intro hn
        exact absurd h hn
    · intro _
      rfl
  · rw [if_neg h]
    exact ⟨⟨fun _ => h, fun _ => rfl⟩, fun hmem => absurd hmem h⟩

/-- C10 (witness): registering a period for the registered code "A"
appends exactly one normalized row. -/
theorem registrar_contrato_witness :
    ("A" ∈ ["A"]) ∧
    registrar_periodo [] ["A"] "A" 0 none = [] ++ [⟨"A", 0, 5⟩] :=
  ⟨by simp, (registrar_contrato [] ["A"] "A" 0 none).2 (by simp)⟩

/-- C7 (witness): the amended claim at the single date 0 with no
recorded durations. -/
theorem un_dato_prediccion_default_witness :
    (∃ p, predecir_proximo_ciclo [0] = some p ∧ p.promedio_ciclo = 28 ∧
      p.desviacion_estandar = 2 ∧ p.metodo = "valor_default" ∧ p.fecha = 0 + 28) ∧
    (∃ datos, calcular_fases_ciclo [0] [] = some datos ∧
      datos.promedio = 28 ∧ datos.ultima_fecha = 0 ∧
      datos.fases = construir_fases 0 28 (obtener_duracion_menstrual_optima [])) :=
  un_dato_prediccion_default 0 []

end PeriodPredictor
